import Mathlib

/-!
A shallow embedding of the configuration-building core of TileStache
(`TileStache/Config.py`): JSON-shaped configuration values, the tile-pyramid
bounds test, local-path enforcement, the class-loading plugin mechanism, the
cache/layer factories and the top-level configuration builder, together with
theorems settling the specified properties.

Python runtime aspects are modelled explicitly:
* JSON documents become the inductive type `JVal`; JSON numerals are modelled
  as integers (the fragment exercised by the configuration schema).
* Raised exceptions become the `Err` sum carried in `Except`; distinct Python
  exception classes map to distinct constructors, so the distinction between
  `Core.KnownUnknown` and a plain `Exception`, `KeyError`, `ValueError` or
  `TypeError` is preserved.
* External collaborators not part of the provided source (ModestMaps
  coordinates, `urlparse`, `os.path.join`, `json.dumps`, the Python import
  machinery, the Caches/Providers/Geography registries) are modelled from the
  specification, and say so in their doc comments.
-/

/-- JSON values as produced by parsing a TileStache configuration file.
Numeric leaves are modelled as integers: the configuration schema's numeric
fields (zoom levels, timeouts, metatile sizes) are integral. -/
inductive JVal where
  | null : JVal
  | bool (b : Bool) : JVal
  | num (n : Int) : JVal
  | str (s : String) : JVal
  | arr (xs : List JVal) : JVal
  | obj (kvs : List (String × JVal)) : JVal

/-- Whether a JSON value is an object (a Python `dict`). -/
def JVal.isObj : JVal → Bool
  | .obj _ => true
  | _ => false

/-- Modelled from the spec: serialization of a configuration fragment, as
`json.dumps` renders it with default separators; string escaping is minimal
(backslash and double quote), which covers the schema's plain keys. -/
def escapeJson (s : String) : String :=
  s.data.foldl (fun acc c =>
    if c = '\\' then acc ++ "\\\\"
    else if c = '"' then acc ++ "\\\""
    else acc ++ String.singleton c) ""

mutual

/-- Modelled from the spec: `json.dumps` on a single value. -/
def json_dumps : JVal → String
  | .null => "null"
  | .bool true => "true"
  | .bool false => "false"
  | .num n => toString n
  | .str s => "\"" ++ escapeJson s ++ "\""
  | .arr xs => "[" ++ jsonDumpsList xs ++ "]"
  | .obj kvs => "\x7b" ++ jsonDumpsPairs kvs ++ "\x7d"

/-- Comma-separated rendering of array elements. -/
def jsonDumpsList : List JVal → String
  | [] => ""
  | [x] => json_dumps x
  | x :: rest => json_dumps x ++ ", " ++ jsonDumpsList rest

/-- Comma-separated rendering of object members. -/
def jsonDumpsPairs : List (String × JVal) → String
  | [] => ""
  | [(k, v)] => "\"" ++ escapeJson k ++ "\": " ++ json_dumps v
  | (k, v) :: rest =>
      "\"" ++ escapeJson k ++ "\": " ++ json_dumps v ++ ", " ++ jsonDumpsPairs rest

end

/-- The exception classes raised by the configuration builder.  Python's
`Core.KnownUnknown` (the well-known configuration error), plain `Exception`,
`KeyError`, `ValueError`, `TypeError` and `AttributeError` become distinct
constructors so wrapping behavior is observable. -/
inductive Err where
  | knownUnknown (msg : String) : Err
  | exception (msg : String) : Err
  | keyError (key : String) : Err
  | valueError (msg : String) : Err
  | typeError (msg : String) : Err
  | attributeError (msg : String) : Err
deriving DecidableEq, Repr

/-- Whether a computation failed specifically with `Core.KnownUnknown`. -/
def Err.isKnownUnknown : Err → Bool
  | .knownUnknown _ => true
  | _ => false

/-- Whether an `Except` result is a `Core.KnownUnknown` failure. -/
def resultIsKnownUnknown {α : Type} : Except Err α → Bool
  | .error e => e.isKnownUnknown
  | .ok _ => false

/-- Modelled from the spec: a ModestMaps tile-pyramid coordinate
(zoom, row, column).  Rows and columns are rationals because reprojection
halves or doubles them per zoom-level step and intermediate values are
fractional. -/
structure Coordinate where
  row : ℚ
  column : ℚ
  zoom : ℤ
deriving DecidableEq, Repr

/-- Modelled from the spec: reprojection to a destination zoom, doubling row
and column per zoom-in step and halving per zoom-out step. -/
def Coordinate.zoomTo (c : Coordinate) (destination : ℤ) : Coordinate :=
  ⟨c.row * (2 : ℚ) ^ (destination - c.zoom),
   c.column * (2 : ℚ) ^ (destination - c.zoom),
   destination⟩

/-- Modelled from the spec: the neighbor one column to the right. -/
def Coordinate.right (c : Coordinate) : Coordinate :=
  ⟨c.row, c.column + 1, c.zoom⟩

/-- Modelled from the spec: the neighbor one row down. -/
def Coordinate.down (c : Coordinate) : Coordinate :=
  ⟨c.row + 1, c.column, c.zoom⟩

/-- Coordinate bounding box for tiles: `upper_left_high` is the left-most
column, upper-most row and highest zoom; `lower_right_low` the right-most
column, furthest-down row and lowest zoom (both inclusive). -/
structure Bounds where
  upper_left_high : Coordinate
  lower_right_low : Coordinate
deriving DecidableEq, Repr

/-- `Bounds.excludes`: check a tile coordinate against the bounds. -/
def Bounds.excludes (b : Bounds) (tile : Coordinate) : Bool :=
  if tile.zoom > b.upper_left_high.zoom then
    -- too zoomed-in
    true
  else if tile.zoom < b.lower_right_low.zoom then
    -- too zoomed-out
    true
  else
    -- check the top-left tile corner against the lower-right bound
    let t1 := tile.zoomTo b.lower_right_low.zoom
    if t1.column > b.lower_right_low.column then
      -- too far right
      true
    else if t1.row > b.lower_right_low.row then
      -- too far down
      true
    else
      -- check the bottom-right tile corner against the upper-left bound
      let t2 := (tile.right.down).zoomTo b.upper_left_high.zoom
      if t2.column < b.upper_left_high.column then
        -- too far left
        true
      else if t2.row < b.upper_left_high.row then
        -- too far up
        true
      else
        false

/-- Split a character list at every occurrence of a separator character
(Python `str.split(sep)`): structural recursion, so concrete instances
evaluate inside the kernel. -/
def splitChars (sep : Char) : List Char → List (List Char)
  | [] => [[]]
  | x :: xs =>
      match splitChars sep xs with
      | [] => if x = sep then [[], []] else [[x]]
      | h :: t => if x = sep then [] :: h :: t else (x :: h) :: t

/-- Interleave a separator character between pieces (Python `sep.join`). -/
def joinChars (sep : Char) : List (List Char) → List Char
  | [] => []
  | [p] => p
  | p :: rest => p ++ sep :: joinChars sep rest

/-- Split a string at every occurrence of a separator character. -/
def strSplit (sep : Char) (s : String) : List String :=
  (splitChars sep s.data).map fun l => ⟨l⟩

/-- Join strings with a separator character. -/
def strJoin (sep : Char) (parts : List String) : String :=
  ⟨joinChars sep (parts.map String.data)⟩

/-- Lowercase an ASCII letter (Python `str.lower` on the schema's inputs). -/
def lowerChar (c : Char) : Char :=
  if 'A' ≤ c && c ≤ 'Z' then Char.ofNat (c.toNat + 32) else c

/-- Lowercase a string, ASCII-wise. -/
def strLower (s : String) : String :=
  ⟨s.data.map lowerChar⟩

/-- A parsed URL: the components of Python's `urlparse` that the builder
consults (scheme, network location, path). -/
structure ParsedUrl where
  scheme : String
  netloc : String
  path : String
deriving DecidableEq, Repr

/-- Characters allowed in a URL scheme. -/
def schemeChar (c : Char) : Bool :=
  c.isAlpha || c.isDigit || c = '+' || c = '-' || c = '.'

/-- Split the part after the scheme into network location and path: a leading
`//` introduces the network location, which extends to the next `/`. -/
def splitNetloc (scheme : String) (rest : List Char) : ParsedUrl :=
  match rest with
  | '/' :: '/' :: after =>
      ⟨scheme, ⟨after.takeWhile (fun c => c ≠ '/')⟩, ⟨after.dropWhile (fun c => c ≠ '/')⟩⟩
  | _ => ⟨scheme, "", ⟨rest⟩⟩

/-- Modelled from the spec: Python's `urlparse` restricted to the components
the builder consults.  A scheme is recognized when the text before the first
colon is a nonempty run of scheme characters starting with a letter, and is
lowercased; query, fragment and port handling are omitted (the builder never
reads them). -/
def urlparse (url : String) : ParsedUrl :=
  match splitChars ':' url.data with
  | [] => splitNetloc "" url.data
  | [_] => splitNetloc "" url.data
  | pre :: rest =>
      if pre ≠ [] && pre.all schemeChar && (pre.headD '0').isAlpha then
        splitNetloc (strLower ⟨pre⟩) (joinChars ':' rest)
      else
        splitNetloc "" url.data

/-- Modelled from the spec: POSIX `os.path.join` on two components — an
absolute second component discards the first. -/
def pathjoin (a b : String) : String :=
  if b.data.headD ' ' = '/' then b
  else if a = "" || a.data.getLastD ' ' = '/' then a ++ b
  else a ++ "/" ++ b

/-- Remove `.` and `..` segments the way URL joining normalizes them. -/
def normalizeSegs (segs : List (List Char)) : List (List Char) :=
  segs.foldl (fun acc s =>
    if s = ['.'] then acc
    else if s = ['.', '.'] then acc.dropLast
    else acc ++ [s]) []

/-- Modelled from the spec: Python's `urljoin` restricted to scheme-less path
inputs — an absolute second path wins; otherwise the base's last segment is
replaced and `.`/`..` segments are normalized. -/
def urljoin (base url : String) : String :=
  if url = "" then base
  else if url.data.headD ' ' = '/' then url
  else
    match splitChars '/' base.data with
    | [] => url
    | [_] => url
    | first :: restSegs =>
        ⟨joinChars '/'
          (first :: normalizeSegs (restSegs.dropLast ++ splitChars '/' url.data))⟩

/-- `enforcedLocalPath`: return a forced local path, relative to a directory;
raise `Core.KnownUnknown` if the combination of path and directory seems to
specify a remote path. -/
def enforcedLocalPath (relpath dirpath context : String) : Except Err String :=
  let parsed_dir := urlparse dirpath
  let parsed_rel := urlparse relpath
  if parsed_rel.scheme ≠ "file" && parsed_rel.scheme ≠ "" then
    .error (.knownUnknown (context ++ " path must be a local file path, absolute or \"file://\", not \"" ++ relpath ++ "\"."))
  else if (parsed_dir.scheme ≠ "file" && parsed_dir.scheme ≠ "") && parsed_rel.scheme ≠ "file" then
    .error (.knownUnknown (context ++ " path must start with \"file://\" in a remote configuration (\"" ++ relpath ++ "\" relative to " ++ dirpath ++ ")"))
  else if parsed_rel.scheme = "file" then
    -- file:// is an absolute local reference for the disk cache.
    .ok parsed_rel.path
  else if parsed_dir.scheme = "file" then
    -- file:// is an absolute local reference for the directory.
    .ok (urljoin parsed_dir.path parsed_rel.path)
  else
    -- nothing has a scheme: just a bunch of local paths.
    .ok (pathjoin dirpath relpath)

instance {α β : Type} [DecidableEq α] [DecidableEq β] : DecidableEq (Except α β) := fun a b =>
  match a, b with
  | .ok x, .ok y => if h : x = y then .isTrue (by simp [h]) else .isFalse (by simp [h])
  | .error x, .error y => if h : x = y then .isTrue (by simp [h]) else .isFalse (by simp [h])
  | .ok _, .error _ => .isFalse (by simp)
  | .error _, .ok _ => .isFalse (by simp)

/-- Modelled from the spec: a Python value that a class-path specifier can
resolve to — either `None` or a constructible symbol identified by name. -/
inductive PyObj where
  | none : PyObj
  | cls (name : String) : PyObj
deriving DecidableEq, Repr

/-- Modelled from the spec: an importable module — its exported namespace,
mapping attribute names to values (an attribute may itself hold `None`). -/
structure PyModuleDef where
  attrs : List (String × PyObj)
deriving DecidableEq, Repr

/-- Modelled from the spec: the modules importable in the running process,
keyed by dotted module name. -/
abbrev PyEnv : Type := List (String × PyModuleDef)

/-- Modelled from the spec: the process-wide state of the import machinery —
which modules are already loaded (`sys.modules`), and a log recording each
time some module's import-time initialization runs. -/
structure ImportState where
  loaded : List String
  initLog : List String
deriving DecidableEq, Repr

/-- Modelled from the spec: `__import__`.  Importing an unavailable module
fails with `ImportError`; importing a module already in `sys.modules` returns
it without re-running its initialization; otherwise the module is initialized
(recorded in the log) and added to `sys.modules`. -/
def doImport (env : PyEnv) (st : ImportState) (modname : String) :
    ImportState × Except String PyModuleDef :=
  match List.lookup modname env with
  | Option.none => (st, .error ("No module named " ++ modname))
  | some d =>
      if modname ∈ st.loaded then (st, .ok d)
      else (⟨modname :: st.loaded, modname :: st.initLog⟩, .ok d)

/-- First piece of a split (Python `split(sep, 1)[0]`). -/
def headCharsD (l : List (List Char)) : List Char :=
  match l with
  | [] => []
  | x :: _ => x

/-- Last piece of a split (Python `split(sep)[-1]`). -/
def lastCharsD (l : List (List Char)) : List Char :=
  match l with
  | [] => []
  | [x] => x
  | _ :: xs => lastCharsD xs

/-- `loadClassPath`, instrumented with the import machinery's state.  The
`module:expression` form imports the module, evaluates the expression against
its namespace (modelled as attribute lookup) and rejects a `None` result; the
legacy dotted form imports the head and looks up the final attribute.  Either
way the underlying failure is wrapped into `Core.KnownUnknown` echoing the
specifier.  Underlying Python error texts are modelled without quoting. -/
def loadClassPathRun (env : PyEnv) (st : ImportState) (classpath : String) :
    ImportState × Except Err PyObj :=
  if classpath.data.contains ':' then
    -- "foo:blah"-style classpath
    let modname : String := ⟨headCharsD (splitChars ':' classpath.data)⟩
    let objname : String := ⟨joinChars ':' (splitChars ':' classpath.data).tail⟩
    match doImport env st modname with
    | (st1, .error e) =>
        (st1, .error (.knownUnknown ("Tried to import " ++ classpath ++ ", but: " ++ e)))
    | (st1, .ok module) =>
        match List.lookup objname module.attrs with
        | Option.none =>
            (st1, .error (.knownUnknown ("Tried to import " ++ classpath ++
              ", but: name " ++ objname ++ " is not defined")))
        | some PyObj.none =>
            (st1, .error (.knownUnknown ("Tried to import " ++ classpath ++
              ", but: eval(" ++ objname ++ ") in " ++ modname ++ " came up None")))
        | some v => (st1, .ok v)
  else
    -- "foo.blah"-style classpath
    let parts := splitChars '.' classpath.data
    let modname : String := ⟨joinChars '.' parts.dropLast⟩
    let objname : String := ⟨lastCharsD parts⟩
    match doImport env st modname with
    | (st1, .error e) =>
        (st1, .error (.knownUnknown ("Tried to import " ++ classpath ++ ", but: " ++ e)))
    | (st1, .ok module) =>
        match List.lookup objname module.attrs with
        | Option.none =>
            (st1, .error (.knownUnknown ("Tried to import " ++ classpath ++
              ", but: module object has no attribute " ++ objname)))
        | some v => (st1, .ok v)

/-- `loadClassPath` as the factories consume it: the resolved value alone.
The value component of `loadClassPathRun` does not depend on which modules are
already loaded, so it is taken at the pristine state. -/
def loadClassPath (env : PyEnv) (classpath : String) : Except Err PyObj :=
  (loadClassPathRun env ⟨[], []⟩ classpath).2

/-- The builtin cache registry's classes, plus a token for an unknown name
(so the factory's own unknown-cache branch decides the failure) and a
dynamically loaded class. -/
inductive CacheClass where
  | test : CacheClass
  | disk : CacheClass
  | multi : CacheClass
  | memcache : CacheClass
  | s3 : CacheClass
  | named (s : String) : CacheClass
  | loaded (obj : PyObj) : CacheClass
deriving DecidableEq, Repr

/-- Modelled from the spec: `Caches.getCacheByName` — the builtin registry is
external to the provided source, so name resolution is modelled as total,
returning a token for unknown names; the caller's own unknown-cache branch
then raises.  A non-string name fails like `name.lower()` does. -/
def getCacheByName (nameV : JVal) : Except Err CacheClass :=
  match nameV with
  | .str s =>
      let l := strLower s
      if l = "test" then .ok .test
      else if l = "disk" then .ok .disk
      else if l = "multi" then .ok .multi
      else if l = "memcache" then .ok .memcache
      else if l = "s3" then .ok .s3
      else .ok (.named s)
  | _ => .error (.attributeError "object has no attribute lower")

mutual

/-- A constructed cache instance: its class and the keyword arguments the
factory passed to the constructor (cache internals are external). -/
inductive Cache where
  | mk (cls : CacheClass) (kwargs : List (String × CKw)) : Cache

/-- A keyword-argument value passed to a cache constructor: a configuration
fragment passed through unchanged, a resolved path, a parsed umask, the
diagnostic log sink, or the recursively built tier chain. -/
inductive CKw where
  | jval (v : JVal) : CKw
  | str (s : String) : CKw
  | int (n : Int) : CKw
  | logfunc : CKw
  | tiers (ts : List Cache) : CKw

end

/-- The class a cache was constructed from. -/
def Cache.cls : Cache → CacheClass
  | .mk c _ => c

/-- The keyword arguments a cache was constructed with. -/
def Cache.kwargs : Cache → List (String × CKw)
  | .mk _ kw => kw

/-- Python truthiness of a JSON value (`bool(x)`). -/
def pyTruthy : JVal → Bool
  | .null => false
  | .bool b => b
  | .num n => n != 0
  | .str s => s != ""
  | .arr xs => !xs.isEmpty
  | .obj kvs => !kvs.isEmpty

/-- An octal digit. -/
def octDigit (c : Char) : Bool := '0' ≤ c && c ≤ '7'

/-- Value of a nonempty octal digit string. -/
def octValue (l : List Char) : Int :=
  l.foldl (fun acc c => acc * 8 + Int.ofNat (c.toNat - 48)) 0

/-- Modelled from the spec: Python `int(s, 8)` — an optional sign followed by
a nonempty run of octal digits; anything else is a `ValueError`. -/
def int8? (s : String) : Option Int :=
  match s.data with
  | '-' :: ds => if !ds.isEmpty && ds.all octDigit then some (-(octValue ds)) else none
  | '+' :: ds => if !ds.isEmpty && ds.all octDigit then some (octValue ds) else none
  | ds => if !ds.isEmpty && ds.all octDigit then some (octValue ds) else none

/-- Copy the named keys that are present in the spec into constructor keyword
arguments, unchanged (the factory's `add_kwargs` helper). -/
def addKwargs (kvs : List (String × JVal)) (names : List String) : List (String × CKw) :=
  names.foldr (fun k acc =>
    match List.lookup k kvs with
    | some v => (k, CKw.jval v) :: acc
    | Option.none => acc) []

theorem sizeOf_lookup {kvs : List (String × JVal)} {k : String} {v : JVal}
    (h : List.lookup k kvs = some v) : sizeOf v < sizeOf kvs := by
  induction kvs with
  | nil => simp [List.lookup] at h
  | cons p rest ih =>
      obtain ⟨a, b⟩ := p
      rw [List.lookup] at h
      by_cases hk : k == a
      · simp [hk] at h
        subst h
        simp
        omega
      · simp [hk] at h
        have := ih h
        simp
        omega

mutual

/-- `_parseConfigfileCache`: parse just the cache part of a configuration.
A `name` field dispatches on the builtin registry; `class` loads a dynamic
backend; neither raises a plain `Exception` naming the serialized spec.
Python-level failures are modelled: a missing `path`/`tiers` key is a
`KeyError`, a non-octal umask string a `ValueError`, membership tests and
casts on values of the wrong shape a `TypeError`. -/
def _parseConfigfileCache (env : PyEnv) (cache_dict : JVal) (dirpath : String) :
    Except Err Cache :=
  match cache_dict with
  | .obj kvs =>
      match List.lookup "name" kvs with
      | some nameV =>
          (match getCacheByName nameV with
          | .error e => .error e
          | .ok CacheClass.test =>
              if pyTruthy ((List.lookup "verbose" kvs).getD (.bool false)) then
                .ok (.mk .test [("logfunc", .logfunc)])
              else
                .ok (.mk .test [])
          | .ok CacheClass.disk =>
              (match List.lookup "path" kvs with
              | Option.none => .error (.keyError "path")
              | some (.str p) =>
                  (match enforcedLocalPath p dirpath "Disk cache path" with
                  | .error e => .error e
                  | .ok q =>
                      match List.lookup "umask" kvs with
                      | some (.str u) =>
                          (match int8? u with
                          | some n =>
                              .ok (.mk .disk ([("path", .str q), ("umask", .int n)] ++
                                addKwargs kvs ["dirs", "gzip"]))
                          | Option.none =>
                              .error (.valueError
                                ("invalid literal for int() with base 8: " ++ u)))
                      | some _ =>
                          .error (.typeError
                            "int() cannot convert non-string with explicit base")
                      | Option.none =>
                          .ok (.mk .disk ([("path", .str q)] ++
                            addKwargs kvs ["dirs", "gzip"])))
              | some _ => .error (.typeError "urlparse expects a string"))
          | .ok CacheClass.multi =>
              (match h2 : List.lookup "tiers" kvs with
              | some (.arr ts) =>
                  (match parseCacheTiers env ts dirpath with
                  | .error e => .error e
                  | .ok cs => .ok (.mk .multi [("tiers", .tiers cs)]))
              | some _ => .error (.typeError "iteration over non-sequence")
              | Option.none => .error (.keyError "tiers"))
          | .ok CacheClass.memcache =>
              .ok (.mk .memcache (addKwargs kvs ["servers", "lifespan", "revision"]))
          | .ok CacheClass.s3 =>
              .ok (.mk .s3 (addKwargs kvs ["bucket", "access", "secret"]))
          | .ok (CacheClass.named s) =>
              -- unknown cache backend: the factory itself raises
              .error (.exception ("Unknown cache: " ++ s))
          | .ok (CacheClass.loaded _) =>
              -- never returned by the name registry
              .error (.exception "unreachable"))
      | Option.none =>
          match List.lookup "class" kvs with
          | some (.str cp) =>
              (match loadClassPath env cp with
              | .error e => .error e
              | .ok obj =>
                  match (List.lookup "kwargs" kvs).getD (.obj []) with
                  | .obj kw => .ok (.mk (.loaded obj) (kw.map fun p => (p.1, CKw.jval p.2)))
                  | _ => .error (.attributeError "items on non-dict"))
          | some _ => .error (.typeError "argument of type is not iterable")
          | Option.none =>
              .error (.exception
                ("Missing required cache name or class: " ++ json_dumps (.obj kvs)))
  | v => .error (.typeError ("argument of type is not iterable: " ++ json_dumps v))
termination_by sizeOf cache_dict
decreasing_by
  have h := sizeOf_lookup h2
  simp only [JVal.arr.sizeOf_spec, JVal.obj.sizeOf_spec] at h ⊢
  omega

/-- Build each tier of a `Multi` cache in order with the cache factory. -/
def parseCacheTiers (env : PyEnv) (ts : List JVal) (dirpath : String) :
    Except Err (List Cache) :=
  match ts with
  | [] => .ok []
  | t :: rest =>
      match _parseConfigfileCache env t dirpath with
      | .error e => .error e
      | .ok c =>
          match parseCacheTiers env rest dirpath with
          | .error e => .error e
          | .ok cs => .ok (c :: cs)
termination_by sizeOf ts

end

/-- Modelled from the spec: the projections the external Geography
collaborator provides. -/
inductive Projection where
  | sphericalMercator : Projection
  | wgs84 : Projection
deriving DecidableEq, Repr

/-- Modelled from the spec: `Geography.getProjectionByName` — resolves the
projection name (the registry is external to the provided source); an unknown
name fails in the registry. -/
def getProjectionByName (v : JVal) : Except Err Projection :=
  match v with
  | .str s =>
      if s = "spherical mercator" then .ok .sphericalMercator
      else if s = "WGS84" then .ok .wgs84
      else .error (.exception ("Unknown projection: " ++ s))
  | _ => .error (.typeError "projection name must be a string")

/-- Modelled from the spec: the Projection collaborator's transform from a
geographic location to a zoom-0 tile coordinate.  The real transform's
analytic geometry is external (ModestMaps); the builder only constructs
coordinates with it, so it is modelled as the identity placement. -/
def locationCoordinate (_proj : Projection) (lat lon : Int) : Coordinate :=
  ⟨(lat : ℚ), (lon : ℚ), 0⟩

/-- Modelled from the spec: `Core.Metatile` batching parameters, with the
collaborator's defaults for absent fields. -/
structure Metatile where
  buffer : Int
  rows : Int
  columns : Int
deriving DecidableEq, Repr

/-- Python `int(x)` on a JSON value: integers pass through, integral strings
parse (a non-numeric string is a `ValueError`), booleans coerce, `None` and
containers are a `TypeError`. -/
def pyInt (v : JVal) : Except Err Int :=
  match v with
  | .num n => .ok n
  | .str s =>
      match s.toInt? with
      | some n => .ok n
      | Option.none => .error (.valueError ("invalid literal for int() with base 10: " ++ s))
  | .bool b => .ok (if b then 1 else 0)
  | .null => .error (.typeError "int() argument must be a string or a number, not NoneType")
  | _ => .error (.typeError "int() argument must be a string or a number")

/-- Python `float(x)` on a JSON value; JSON numerals are modelled as
integers, so the coercion is integral. -/
def pyFloat (v : JVal) : Except Err Int :=
  match v with
  | .num n => .ok n
  | .str s =>
      match s.toInt? with
      | some n => .ok n
      | Option.none => .error (.valueError ("could not convert string to float: " ++ s))
  | .bool b => .ok (if b then 1 else 0)
  | .null => .error (.typeError "float() argument must be a string or a number, not NoneType")
  | _ => .error (.typeError "float() argument must be a string or a number")

/-- Python `str(x)` on a JSON value (total). -/
def pyStr (v : JVal) : String :=
  match v with
  | .str s => s
  | .num n => toString n
  | .bool true => "True"
  | .bool false => "False"
  | .null => "None"
  | x => json_dumps x

/-- `_parseLayerBounds`: build a `Bounds` from the six required sub-fields.
The source computes both corners inside a `try` and turns any `TypeError`
into the incomplete-bounds `Core.KnownUnknown`; arithmetic on an absent
(`None`) or non-numeric sub-field is what raises `TypeError`, so the model
requires all six fields to be numeric leaves.  One numeric field: -/
def numField (bounds_dict : List (String × JVal)) (k : String) : Option Int :=
  match List.lookup k bounds_dict with
  | some (.num n) => some n
  | _ => Option.none

/-- `_parseLayerBounds` (continued): the six coordinates, gathered in source
order; `Option.none` anywhere stands for the `TypeError` the arithmetic
raises there. -/
def sixBounds (bounds_dict : List (String × JVal)) :
    Option (Int × Int × Int × Int × Int × Int) :=
  match numField bounds_dict "north" with
  | Option.none => Option.none
  | some n =>
  match numField bounds_dict "west" with
  | Option.none => Option.none
  | some w =>
  match numField bounds_dict "south" with
  | Option.none => Option.none
  | some s =>
  match numField bounds_dict "east" with
  | Option.none => Option.none
  | some e =>
  match numField bounds_dict "high" with
  | Option.none => Option.none
  | some hi =>
  match numField bounds_dict "low" with
  | Option.none => Option.none
  | some lo => some (n, w, s, e, hi, lo)

def _parseLayerBounds (bounds_dict : List (String × JVal)) (projection : Projection) :
    Except Err Bounds :=
  match sixBounds bounds_dict with
  | some (n, w, s, e, hi, lo) =>
      .ok ⟨(locationCoordinate projection n w).zoomTo hi,
           (locationCoordinate projection s e).zoomTo lo⟩
  | Option.none =>
      .error (.knownUnknown
        ("Missing part of bounds for layer, need north, south, east, west, high, and low: " ++
          json_dumps (.obj bounds_dict)))

/-- The builtin provider registry's classes, plus a dynamically loaded one. -/
inductive ProviderClass where
  | mapnik : ProviderClass
  | proxy : ProviderClass
  | urlTemplate : ProviderClass
  | vector : ProviderClass
  | mbtiles : ProviderClass
  | loaded (obj : PyObj) : ProviderClass
deriving DecidableEq, Repr

/-- Modelled from the spec: `Providers.getProviderByName` — the builtin
registry is external to the provided source; an unknown name fails in the
registry. -/
def getProviderByName (nameV : JVal) : Except Err ProviderClass :=
  match nameV with
  | .str s =>
      let l := strLower s
      if l = "mapnik" then .ok .mapnik
      else if l = "proxy" then .ok .proxy
      else if l = "url template" then .ok .urlTemplate
      else if l = "vector" then .ok .vector
      else if l = "mbtiles" then .ok .mbtiles
      else .error (.exception ("Unknown provider name: " ++ s))
  | _ => .error (.attributeError "object has no attribute lower")

/-- A keyword-argument value passed to a layer or provider constructor. -/
inductive KwVal where
  | jval (v : JVal) : KwVal
  | int (n : Int) : KwVal
  | float (n : Int) : KwVal
  | str (s : String) : KwVal
  | bool (b : Bool) : KwVal
  | bounds (b : Bounds) : KwVal

/-- A constructed layer: projection, metatile, the behavior keyword
arguments, the provider's class and constructor arguments, and the encoder
option mappings attached after construction.  The provider's back-reference
to its layer is a runtime cycle and is not represented. -/
structure Layer where
  projection : Projection
  metatile : Metatile
  kwargs : List (String × KwVal)
  provider_cls : ProviderClass
  provider_kwargs : List (String × KwVal)
  jpeg_options : List (String × JVal)
  png_options : List (String × JVal)

/-- Python `d[k]` on a JSON object: a missing key is a `KeyError`. -/
def jget (kvs : List (String × JVal)) (k : String) : Except Err JVal :=
  match List.lookup k kvs with
  | some v => .ok v
  | Option.none => .error (.keyError k)

/-- Extract the constructor keyword arguments for a builtin provider class,
per the source's per-variant requirements. -/
def providerKwargs (pcls : ProviderClass) (pkvs : List (String × JVal)) :
    Except Err (List (String × KwVal)) :=
  match pcls with
  | .mapnik =>
      match jget pkvs "mapfile" with
      | .error e => .error e
      | .ok mf =>
          .ok [("mapfile", .jval mf), ("fonts", .jval ((List.lookup "fonts" pkvs).getD .null))]
  | .proxy =>
      let l1 : List (String × KwVal) :=
        match List.lookup "url" pkvs with
        | some u => [("url", .jval u)]
        | Option.none => []
      let l2 : List (String × KwVal) :=
        match List.lookup "provider" pkvs with
        | some p => [("provider_name", .jval p)]
        | Option.none => []
      .ok (l1 ++ l2)
  | .urlTemplate =>
      match jget pkvs "template" with
      | .error e => .error e
      | .ok t => .ok [("template", .jval t)]
  | .vector =>
      match jget pkvs "driver" with
      | .error e => .error e
      | .ok driver =>
      match jget pkvs "parameters" with
      | .error e => .error e
      | .ok params =>
          let props := (List.lookup "properties" pkvs).getD .null
          let projected := pyTruthy ((List.lookup "projected" pkvs).getD (.bool false))
          let verbose := pyTruthy ((List.lookup "verbose" pkvs).getD (.bool false))
          match
            (match List.lookup "spacing" pkvs with
            | some _ =>
                (match pyFloat ((List.lookup "spacing" pkvs).getD (.num 0)) with
                | .error e => .error e
                | .ok q => .ok [("spacing", KwVal.float q)])
            | Option.none => .ok [("spacing", KwVal.jval .null)] :
              Except Err (List (String × KwVal))) with
          | .error e => .error e
          | .ok spacing =>
              let clipped :=
                match List.lookup "clipped" pkvs with
                | some (.str s) =>
                    if s = "padded" then KwVal.str "padded"
                    else KwVal.bool (pyTruthy (.str s))
                | some v => KwVal.bool (pyTruthy v)
                | Option.none => KwVal.bool true
              .ok ([("driver", .jval driver), ("parameters", .jval params),
                    ("properties", .jval props), ("projected", KwVal.bool projected),
                    ("verbose", KwVal.bool verbose)] ++ spacing ++ [("clipped", clipped)])
  | .mbtiles =>
      match jget pkvs "tileset" with
      | .error e => .error e
      | .ok ts => .ok [("tileset", .jval ts)]
  | .loaded _ => .ok []

/-- Conditionally coerce one optional field of a spec into a constructor
keyword argument (the source's per-field `if key in dict:` pattern). -/
def optKw (kvs : List (String × JVal)) (key : String) (f : JVal → Except Err KwVal)
    (kwname : String) (acc : List (String × KwVal)) :
    Except Err (List (String × KwVal)) :=
  match List.lookup key kvs with
  | some v =>
      match f v with
      | .error e => .error e
      | .ok kv => .ok (acc ++ [(kwname, kv)])
  | Option.none => .ok acc

/-- Coerce the four optional preview fields (`lat`, `lon` to float, `zoom` to
int, `ext` to string), each independently optional, in source order. -/
def previewKwargs (pkvs : List (String × JVal)) (acc : List (String × KwVal)) :
    Except Err (List (String × KwVal)) :=
  match optKw pkvs "lat" (fun v => (pyFloat v).map KwVal.float) "preview_lat" acc with
  | .error e => .error e
  | .ok a1 =>
  match optKw pkvs "lon" (fun v => (pyFloat v).map KwVal.float) "preview_lon" a1 with
  | .error e => .error e
  | .ok a2 =>
  match optKw pkvs "zoom" (fun v => (pyInt v).map KwVal.int) "preview_zoom" a2 with
  | .error e => .error e
  | .ok a3 =>
      optKw pkvs "ext" (fun v => .ok (KwVal.str (pyStr v))) "preview_ext" a3

/-- One optional metatile field, coerced to int with the collaborator's
default for absence. -/
def metaInt (mkvs : List (String × JVal)) (k : String) (dflt : Int) : Except Err Int :=
  match List.lookup k mkvs with
  | some v => pyInt v
  | Option.none => .ok dflt

/-- An optional encoder-options mapping, passed through verbatim; a present
non-object fails like `.items()` on a non-dict. -/
def optsDict (kvs : List (String × JVal)) (k : String) :
    Except Err (List (String × JVal)) :=
  match List.lookup k kvs with
  | Option.none => .ok []
  | some (.obj o) => .ok o
  | some _ => .error (.attributeError "object has no attribute items")

/-- `_parseConfigfileLayer`: parse just the layer parts of a configuration —
projection, behavior knobs, preview, bounds, metatile, encoder options, then
the provider (builtin registry or dynamic class), in source order; the first
failure aborts the layer. -/
def _parseConfigfileLayer (env : PyEnv) (layer_dict : JVal) (dirpath : String) :
    Except Err Layer :=
  match layer_dict with
  | .obj kvs =>
      match getProjectionByName ((List.lookup "projection" kvs).getD (.str "spherical mercator")) with
      | .error e => .error e
      | .ok projection =>
      match optKw kvs "cache lifespan" (fun v => (pyInt v).map KwVal.int) "cache_lifespan" [] with
      | .error e => .error e
      | .ok kw1 =>
      match optKw kvs "stale lock timeout" (fun v => (pyInt v).map KwVal.int) "stale_lock_timeout" kw1 with
      | .error e => .error e
      | .ok kw2 =>
      match optKw kvs "write cache" (fun v => .ok (KwVal.bool (pyTruthy v))) "write_cache" kw2 with
      | .error e => .error e
      | .ok kw3 =>
      match optKw kvs "allowed origin" (fun v => .ok (KwVal.str (pyStr v))) "allowed_origin" kw3 with
      | .error e => .error e
      | .ok kw4 =>
      match
        (match List.lookup "preview" kvs with
        | Option.none => .ok kw4
        | some (.obj pkvs) => previewKwargs pkvs kw4
        | some _ => .error (.typeError "argument of type is not iterable") :
          Except Err (List (String × KwVal))) with
      | .error e => .error e
      | .ok kwP =>
      match
        (match List.lookup "bounds" kvs with
        | Option.none => .ok kwP
        | some (.obj bkvs) =>
            (match _parseLayerBounds bkvs projection with
            | .error e => .error e
            | .ok b => .ok (kwP ++ [("bounds", KwVal.bounds b)]))
        | some v =>
            .error (.knownUnknown ("Layer bounds must be a dictionary, not: " ++ json_dumps v)) :
          Except Err (List (String × KwVal))) with
      | .error e => .error e
      | .ok kwB =>
      match
        (match (List.lookup "metatile" kvs).getD (.obj []) with
        | .obj mkvs =>
            (match metaInt mkvs "buffer" 0 with
            | .error e => .error e
            | .ok buffer =>
            match metaInt mkvs "rows" 1 with
            | .error e => .error e
            | .ok rows =>
            match metaInt mkvs "columns" 1 with
            | .error e => .error e
            | .ok columns => .ok (Metatile.mk buffer rows columns))
        | _ => .error (.typeError "argument of type is not iterable") :
          Except Err Metatile) with
      | .error e => .error e
      | .ok metatile =>
      match optsDict kvs "jpeg options" with
      | .error e => .error e
      | .ok jpeg_options =>
      match optsDict kvs "png options" with
      | .error e => .error e
      | .ok png_options =>
      match List.lookup "provider" kvs with
      | Option.none => .error (.keyError "provider")
      | some (.obj pkvs) =>
          (match List.lookup "name" pkvs with
          | some nameV =>
              (match getProviderByName nameV with
              | .error e => .error e
              | .ok pcls =>
                  match providerKwargs pcls pkvs with
                  | .error e => .error e
                  | .ok pkw =>
                      .ok ⟨projection, metatile, kwB, pcls, pkw, jpeg_options, png_options⟩)
          | Option.none =>
              match List.lookup "class" pkvs with
              | some (.str cp) =>
                  (match loadClassPath env cp with
                  | .error e => .error e
                  | .ok obj =>
                      match (List.lookup "kwargs" pkvs).getD (.obj []) with
                      | .obj kw =>
                          .ok ⟨projection, metatile, kwB, .loaded obj,
                               kw.map (fun p => (p.1, KwVal.jval p.2)),
                               jpeg_options, png_options⟩
                      | _ => .error (.attributeError "items on non-dict"))
              | some _ => .error (.typeError "argument of type is not iterable")
              | Option.none =>
                  .error (.exception
                    ("Missing required provider name or class: " ++ json_dumps (.obj pkvs))))
      | some v => .error (.typeError ("argument of type is not iterable: " ++ json_dumps v))
  | v => .error (.typeError ("argument of type is not iterable: " ++ json_dumps v))

/-- A complete site configuration: one cache, the base directory, and the
layer collection keyed by name. -/
structure Configuration where
  cache : Cache
  dirpath : String
  layers : List (String × Layer)

/-- Python dict assignment `config.layers[name] = layer`: overwrite the
existing binding or append a new one. -/
def assocSet (l : List (String × Layer)) (k : String) (v : Layer) :
    List (String × Layer) :=
  match l with
  | [] => [(k, v)]
  | (k0, v0) :: rest => if k0 = k then (k, v) :: rest else (k0, v0) :: assocSet rest k v

/-- Build every named layer in order, inserting each into the layer
collection under its name (a later duplicate overwrites). -/
def buildLayersList (env : PyEnv) (dirpath : String) (acc : List (String × Layer)) :
    List (String × JVal) → Except Err (List (String × Layer))
  | [] => .ok acc
  | (name, layer_dict) :: rest =>
      match _parseConfigfileLayer env layer_dict dirpath with
      | .error e => .error e
      | .ok layer => buildLayersList env dirpath (assocSet acc name layer) rest

/-- `buildConfiguration`: build a configuration dictionary into a
`Configuration` — the cache from the `cache` sub-mapping (absent means the
empty spec), then every layer from the `layers` sub-mapping. -/
def buildConfiguration (env : PyEnv) (config_dict : JVal) (dirpath : String) :
    Except Err Configuration :=
  match config_dict with
  | .obj kvs =>
      match _parseConfigfileCache env ((List.lookup "cache" kvs).getD (.obj [])) dirpath with
      | .error e => .error e
      | .ok cache =>
          match (List.lookup "layers" kvs).getD (.obj []) with
          | .obj items =>
              (match buildLayersList env dirpath [] items with
              | .error e => .error e
              | .ok layers => .ok ⟨cache, dirpath, layers⟩)
          | v => .error (.attributeError ("object has no attribute items: " ++ json_dumps v))
  | v => .error (.attributeError ("object has no attribute get: " ++ json_dumps v))

/-- A concrete minimal working configuration: a Test cache and one layer
served by the proxy provider (which requires no fields). -/
def exampleItems : List (String × JVal) :=
  [("example", .obj [("provider", .obj [("name", .str "proxy")])])]

/-- The full configuration spec built from `exampleItems`. -/
def exampleSpec : List (String × JVal) :=
  [("cache", .obj [("name", .str "Test")]), ("layers", .obj exampleItems)]

/-- The layer the factory builds from `exampleItems`: default projection and
metatile, a proxy provider with no arguments. -/
def exampleLayer : Layer :=
  ⟨Projection.sphericalMercator, ⟨0, 1, 1⟩, [], ProviderClass.proxy, [], [], []⟩

/-- The configuration the builder produces from `exampleSpec`. -/
def exampleConf : Configuration :=
  ⟨.mk .test [], ".", [("example", exampleLayer)]⟩

/-- C1: for every `Bounds` whose corners satisfy
`upper_left_high.zoom ≥ lower_right_low.zoom` and every tile coordinate,
`excludes` returns true iff the tile is too zoomed-in, too zoomed-out, past
the lower-right bound once reprojected to the low zoom, or its bottom-right
neighbor reprojected to the high zoom falls before the upper-left bound;
with high = (zoom 10, col 5, row 5) and low = (zoom 8, col 1, row 1), tile
(zoom 9, col 2, row 2) is included, every tile at zoom 11 is excluded, and
tile (zoom 8, col 0, row 0) is excluded. -/
theorem bounds_excludes_spec :
    (∀ (b : Bounds) (t : Coordinate),
      b.lower_right_low.zoom ≤ b.upper_left_high.zoom →
      (b.excludes t = true ↔
        (b.upper_left_high.zoom < t.zoom ∨
         t.zoom < b.lower_right_low.zoom ∨
         b.lower_right_low.column < (t.zoomTo b.lower_right_low.zoom).column ∨
         b.lower_right_low.row < (t.zoomTo b.lower_right_low.zoom).row ∨
         (t.right.down.zoomTo b.upper_left_high.zoom).column < b.upper_left_high.column ∨
         (t.right.down.zoomTo b.upper_left_high.zoom).row < b.upper_left_high.row))) ∧
    (Bounds.mk ⟨5, 5, 10⟩ ⟨1, 1, 8⟩).excludes ⟨2, 2, 9⟩ = false ∧
    (∀ (r c : ℚ), (Bounds.mk ⟨5, 5, 10⟩ ⟨1, 1, 8⟩).excludes ⟨r, c, 11⟩ = true) ∧
    (Bounds.mk ⟨5, 5, 10⟩ ⟨1, 1, 8⟩).excludes ⟨0, 0, 8⟩ = true := by
  refine ⟨?_, ?_, ?_, ?_⟩
  · intro b t _h
    simp only [Bounds.excludes]
    split_ifs with h1 h2 h3 h4 h5 h6 <;> simp_all
  · norm_num [Bounds.excludes, Coordinate.zoomTo, Coordinate.right, Coordinate.down]
  · intro r c
    simp [Bounds.excludes]
  · norm_num [Bounds.excludes, Coordinate.zoomTo, Coordinate.right, Coordinate.down]

/-- C1 witness: the equivalence applied to the concrete bounds and the
concrete tile (zoom 8, col 0, row 0), whose hypothesis 8 ≤ 10 is discharged
there. -/
theorem bounds_excludes_spec_witness :
    (8 : ℤ) ≤ (10 : ℤ) ∧
    ((Bounds.mk ⟨5, 5, 10⟩ ⟨1, 1, 8⟩).excludes ⟨0, 0, 8⟩ = true ↔
      ((10 : ℤ) < (8 : ℤ) ∨ (8 : ℤ) < (8 : ℤ) ∨
       (1 : ℚ) < ((Coordinate.mk 0 0 8).zoomTo 8).column ∨
       (1 : ℚ) < ((Coordinate.mk 0 0 8).zoomTo 8).row ∨
       ((Coordinate.mk 0 0 8).right.down.zoomTo 10).column < (5 : ℚ) ∨
       ((Coordinate.mk 0 0 8).right.down.zoomTo 10).row < (5 : ℚ))) :=
  ⟨by norm_num,
   bounds_excludes_spec.1 (Bounds.mk ⟨5, 5, 10⟩ ⟨1, 1, 8⟩) ⟨0, 0, 8⟩ (by norm_num)⟩

/-- C2: path resolution follows the five-rule cascade — a non-local relative
scheme fails naming the context and value; a remote base with a plain
relative path fails; a `file` relative path returns its path component
verbatim; a `file` base URL-joins its path with the relative path; two plain
paths filesystem-join — and on the four concrete examples it returns
"/abs/path", fails, returns "/abs/p", and returns "/cfg/dir/rel/p". -/
theorem enforcedLocalPath_spec :
    (∀ (rel dir ctx : String),
      (urlparse rel).scheme ≠ "file" → (urlparse rel).scheme ≠ "" →
      enforcedLocalPath rel dir ctx = .error (.knownUnknown
        (ctx ++ " path must be a local file path, absolute or \"file://\", not \"" ++ rel ++ "\"."))) ∧
    (∀ (rel dir ctx : String),
      (urlparse rel).scheme = "" →
      (urlparse dir).scheme ≠ "file" → (urlparse dir).scheme ≠ "" →
      enforcedLocalPath rel dir ctx = .error (.knownUnknown
        (ctx ++ " path must start with \"file://\" in a remote configuration (\"" ++ rel ++ "\" relative to " ++ dir ++ ")"))) ∧
    (∀ (rel dir ctx : String),
      (urlparse rel).scheme = "file" →
      enforcedLocalPath rel dir ctx = .ok (urlparse rel).path) ∧
    (∀ (rel dir ctx : String),
      (urlparse rel).scheme = "" → (urlparse dir).scheme = "file" →
      enforcedLocalPath rel dir ctx = .ok (urljoin (urlparse dir).path (urlparse rel).path)) ∧
    (∀ (rel dir ctx : String),
      (urlparse rel).scheme = "" → (urlparse dir).scheme = "" →
      enforcedLocalPath rel dir ctx = .ok (pathjoin dir rel)) ∧
    enforcedLocalPath "/abs/path" "/cfg/dir" "Disk cache path" = .ok "/abs/path" ∧
    resultIsKnownUnknown (enforcedLocalPath "relative/p" "http://example.com/cfg" "Disk cache path") = true ∧
    enforcedLocalPath "file:///abs/p" "http://example.com/cfg" "Disk cache path" = .ok "/abs/p" ∧
    enforcedLocalPath "rel/p" "/cfg/dir" "Disk cache path" = .ok "/cfg/dir/rel/p" := by
  refine ⟨?_, ?_, ?_, ?_, ?_, by decide, by decide, by decide, by decide⟩
  · intro rel dir ctx h1 h2
    simp [enforcedLocalPath, h1, h2]
  · intro rel dir ctx h1 h2 h3
    simp [enforcedLocalPath, h1, h2, h3]
  · intro rel dir ctx h1
    simp [enforcedLocalPath, h1]
  · intro rel dir ctx h1 h2
    simp [enforcedLocalPath, h1, h2]
  · intro rel dir ctx h1 h2
    simp [enforcedLocalPath, h1, h2]

/-- C2 witness: the plain-paths rule applied to the concrete pair
("rel/p", "/cfg/dir"), both schemes empty there. -/
theorem enforcedLocalPath_spec_witness :
    (urlparse "rel/p").scheme = "" ∧ (urlparse "/cfg/dir").scheme = "" ∧
    enforcedLocalPath "rel/p" "/cfg/dir" "P" = .ok (pathjoin "/cfg/dir" "rel/p") :=
  ⟨by decide, by decide,
   (enforcedLocalPath_spec.2.2.2.2.1) "rel/p" "/cfg/dir" "P" (by decide) (by decide)⟩

theorem doImport_idem (env : PyEnv) (s0 s1 : ImportState) (m : String) (d : PyModuleDef)
    (h : doImport env s0 m = (s1, .ok d)) : doImport env s1 m = (s1, .ok d) := by
  unfold doImport at h ⊢
  cases hl : List.lookup m env with
  | none => rw [hl] at h; simp at h
  | some d0 =>
      rw [hl] at h
      by_cases hm : m ∈ s0.loaded
      · simp [hm] at h
        obtain ⟨h1, h2⟩ := h
        subst h1; subst h2
        simp [hm]
      · simp [hm] at h
        obtain ⟨h1, h2⟩ := h
        subst h2
        rw [← h1]
        simp

/-- C4 counterexample: in the legacy dotted form, an attribute that exists
but holds `None` is returned successfully instead of failing — only the
`module:expression` form rejects a null result. -/
theorem loadClassPath_legacy_null_counterexample :
    loadClassPath [("m", PyModuleDef.mk [("X", PyObj.none)])] "m.X" = .ok PyObj.none := by
  decide

/-- C4 amended: for every class-path specifier, resolution fails with a
`Core.KnownUnknown` that embeds the underlying failure text and echoes the
original specifier whenever the module cannot be imported (both forms), the
named expression or attribute does not exist (both forms), or — in the
`module:expression` form only — the resolved value is null; the legacy
dotted form returns the resolved attribute even when it is null. -/
theorem loadClassPath_wraps_failures :
    (∀ (env : PyEnv) (cp : String),
      cp.data.contains ':' = true →
      List.lookup (String.mk (headCharsD (splitChars ':' cp.data))) env = Option.none →
      loadClassPath env cp = .error (.knownUnknown
        ("Tried to import " ++ cp ++ ", but: " ++
          ("No module named " ++ String.mk (headCharsD (splitChars ':' cp.data)))))) ∧
    (∀ (env : PyEnv) (cp : String) (d : PyModuleDef),
      cp.data.contains ':' = true →
      List.lookup (String.mk (headCharsD (splitChars ':' cp.data))) env = some d →
      List.lookup (String.mk (joinChars ':' (splitChars ':' cp.data).tail)) d.attrs = Option.none →
      loadClassPath env cp = .error (.knownUnknown
        ("Tried to import " ++ cp ++ ", but: name " ++
          String.mk (joinChars ':' (splitChars ':' cp.data).tail) ++ " is not defined"))) ∧
    (∀ (env : PyEnv) (cp : String) (d : PyModuleDef),
      cp.data.contains ':' = true →
      List.lookup (String.mk (headCharsD (splitChars ':' cp.data))) env = some d →
      List.lookup (String.mk (joinChars ':' (splitChars ':' cp.data).tail)) d.attrs = some PyObj.none →
      loadClassPath env cp = .error (.knownUnknown
        ("Tried to import " ++ cp ++ ", but: eval(" ++
          String.mk (joinChars ':' (splitChars ':' cp.data).tail) ++ ") in " ++
          String.mk (headCharsD (splitChars ':' cp.data)) ++ " came up None"))) ∧
    (∀ (env : PyEnv) (cp : String),
      cp.data.contains ':' = false →
      List.lookup (String.mk (joinChars '.' (splitChars '.' cp.data).dropLast)) env = Option.none →
      loadClassPath env cp = .error (.knownUnknown
        ("Tried to import " ++ cp ++ ", but: " ++
          ("No module named " ++ String.mk (joinChars '.' (splitChars '.' cp.data).dropLast))))) ∧
    (∀ (env : PyEnv) (cp : String) (d : PyModuleDef),
      cp.data.contains ':' = false →
      List.lookup (String.mk (joinChars '.' (splitChars '.' cp.data).dropLast)) env = some d →
      List.lookup (String.mk (lastCharsD (splitChars '.' cp.data))) d.attrs = Option.none →
      loadClassPath env cp = .error (.knownUnknown
        ("Tried to import " ++ cp ++ ", but: module object has no attribute " ++
          String.mk (lastCharsD (splitChars '.' cp.data))))) ∧
    (∀ (env : PyEnv) (cp : String) (d : PyModuleDef) (v : PyObj),
      cp.data.contains ':' = false →
      List.lookup (String.mk (joinChars '.' (splitChars '.' cp.data).dropLast)) env = some d →
      List.lookup (String.mk (lastCharsD (splitChars '.' cp.data))) d.attrs = some v →
      loadClassPath env cp = .ok v) := by
  refine ⟨?_, ?_, ?_, ?_, ?_, ?_⟩
  · intro env cp h1 h2
    simp only [loadClassPath, loadClassPathRun, doImport, h1, h2, if_true]
  · intro env cp d h1 h2 h3
    simp only [loadClassPath, loadClassPathRun, doImport, h1, h2, h3, if_true]
    simp [h3]
  · intro env cp d h1 h2 h3
    simp only [loadClassPath, loadClassPathRun, doImport, h1, h2, h3, if_true]
    simp [h3]
  · intro env cp h1 h2
    simp only [loadClassPath, loadClassPathRun, doImport, h1, h2, Bool.false_eq_true, if_false]
  · intro env cp d h1 h2 h3
    simp only [loadClassPath, loadClassPathRun, doImport, h1, h2, h3, Bool.false_eq_true, if_false]
    simp [h3]
  · intro env cp d v h1 h2 h3
    simp only [loadClassPath, loadClassPathRun, doImport, h1, h2, h3, Bool.false_eq_true, if_false]
    simp [h3]

/-- C4 witness: the unimportable-module case applied to the concrete
specifier "m:X" against an empty module environment. -/
theorem loadClassPath_wraps_failures_witness :
    ("m:X".data.contains ':' = true) ∧
    (List.lookup ("m" : String) ([] : PyEnv) = Option.none) ∧
    loadClassPath [] "m:X" =
      .error (.knownUnknown "Tried to import m:X, but: No module named m") :=
  ⟨by decide, rfl, loadClassPath_wraps_failures.1 [] "m:X" (by decide) rfl⟩

/-- C8: re-resolving a class-path specifier that resolved successfully is
idempotent — the second resolution returns the same value and leaves the
state of the import machinery untouched, so the backing module's
import-time initialization is not re-run. -/
theorem loadClassPath_idempotent :
    ∀ (env : PyEnv) (s0 s1 : ImportState) (cp : String) (v : PyObj),
      loadClassPathRun env s0 cp = (s1, .ok v) →
      loadClassPathRun env s1 cp = (s1, .ok v) := by
  intro env s0 s1 cp v h
  unfold loadClassPathRun at h ⊢
  by_cases hc : cp.data.contains ':' <;>
    simp only [hc, Bool.false_eq_true, if_true, if_false] at h ⊢
  · revert h
    generalize (String.mk (headCharsD (splitChars ':' cp.data)) : String) = M
    generalize (String.mk (joinChars ':' (splitChars ':' cp.data).tail) : String) = O
    intro h
    rcases hd : doImport env s0 M with ⟨st', r⟩
    rw [hd] at h
    cases r with
    | error e => simp at h
    | ok module =>
        rcases hl : List.lookup O module.attrs with _ | w
        · simp only [hl] at h
          simp at h
        · cases w with
          | none => simp only [hl] at h; simp at h
          | cls nm =>
              simp only [hl] at h
              simp at h
              obtain ⟨h1, h2⟩ := h
              subst h1
              rw [doImport_idem env s0 st' M module hd]
              simp only [hl]
              simp [h2]
  · revert h
    generalize (String.mk (joinChars '.' (splitChars '.' cp.data).dropLast) : String) = M
    generalize (String.mk (lastCharsD (splitChars '.' cp.data)) : String) = O
    intro h
    rcases hd : doImport env s0 M with ⟨st', r⟩
    rw [hd] at h
    cases r with
    | error e => simp at h
    | ok module =>
        rcases hl : List.lookup O module.attrs with _ | w
        · simp only [hl] at h
          simp at h
        · simp only [hl] at h
          simp at h
          obtain ⟨h1, h2⟩ := h
          subst h1
          rw [doImport_idem env s0 st' M module hd]
          simp only [hl]
          simp [h2]

/-- C8 witness: a first successful resolution of "m:X" loads module m; the
theorem applied there shows the second resolution returns the same class and
the same state (no new entry in the initialization log). -/
theorem loadClassPath_idempotent_witness :
    loadClassPathRun [("m", PyModuleDef.mk [("X", PyObj.cls "Widget")])]
        ⟨["m"], ["m"]⟩ "m:X" =
      (⟨["m"], ["m"]⟩, Except.ok (PyObj.cls "Widget")) :=
  loadClassPath_idempotent [("m", PyModuleDef.mk [("X", PyObj.cls "Widget")])]
    ⟨[], []⟩ ⟨["m"], ["m"]⟩ "m:X" (PyObj.cls "Widget") (by decide)

/-- C3 counterexample: the missing-cache-selector failure is raised as a
plain `Exception`, not as `Core.KnownUnknown`, so not every schema-shape
failure carries the single well-known error kind. -/
theorem schema_error_kind_counterexample :
    _parseConfigfileCache [] (.obj []) "." =
      .error (.exception "Missing required cache name or class: \x7b\x7d") ∧
    resultIsKnownUnknown (_parseConfigfileCache [] (.obj []) ".") = false := by
  have h : _parseConfigfileCache [] (.obj []) "." =
      .error (.exception "Missing required cache name or class: \x7b\x7d") := by
    simp [_parseConfigfileCache, json_dumps, jsonDumpsPairs]
  exact ⟨h, by simp [h, resultIsKnownUnknown, Err.isKnownUnknown]⟩

/-- C3 amended: every listed schema-shape failure aborts the build with an
error whose message includes the serialized malformed fragment, but only the
bounds failures are `Core.KnownUnknown` — the missing cache selector, the
unknown cache backend name, and the missing provider selector are raised as
plain `Exception`. -/
theorem schema_error_reporting :
    (∀ (env : PyEnv) (kvs : List (String × JVal)) (dp : String),
      List.lookup "name" kvs = Option.none → List.lookup "class" kvs = Option.none →
      _parseConfigfileCache env (.obj kvs) dp =
        .error (.exception ("Missing required cache name or class: " ++ json_dumps (.obj kvs)))) ∧
    (∀ (env : PyEnv) (kvs : List (String × JVal)) (dp : String) (s : String),
      List.lookup "name" kvs = some (.str s) →
      getCacheByName (.str s) = .ok (CacheClass.named s) →
      _parseConfigfileCache env (.obj kvs) dp = .error (.exception ("Unknown cache: " ++ s))) ∧
    (∀ (env : PyEnv) (kvs pkvs : List (String × JVal)) (dp : String),
      List.lookup "projection" kvs = Option.none →
      List.lookup "cache lifespan" kvs = Option.none →
      List.lookup "stale lock timeout" kvs = Option.none →
      List.lookup "write cache" kvs = Option.none →
      List.lookup "allowed origin" kvs = Option.none →
      List.lookup "preview" kvs = Option.none →
      List.lookup "bounds" kvs = Option.none →
      List.lookup "metatile" kvs = Option.none →
      List.lookup "jpeg options" kvs = Option.none →
      List.lookup "png options" kvs = Option.none →
      List.lookup "provider" kvs = some (.obj pkvs) →
      List.lookup "name" pkvs = Option.none →
      List.lookup "class" pkvs = Option.none →
      _parseConfigfileLayer env (.obj kvs) dp =
        .error (.exception ("Missing required provider name or class: " ++ json_dumps (.obj pkvs)))) ∧
    (∀ (bkvs : List (String × JVal)) (proj : Projection),
      List.lookup "north" bkvs = Option.none →
      _parseLayerBounds bkvs proj = .error (.knownUnknown
        ("Missing part of bounds for layer, need north, south, east, west, high, and low: " ++
          json_dumps (.obj bkvs)))) ∧
    (∀ (env : PyEnv) (kvs : List (String × JVal)) (v : JVal) (dp : String),
      List.lookup "projection" kvs = Option.none →
      List.lookup "cache lifespan" kvs = Option.none →
      List.lookup "stale lock timeout" kvs = Option.none →
      List.lookup "write cache" kvs = Option.none →
      List.lookup "allowed origin" kvs = Option.none →
      List.lookup "preview" kvs = Option.none →
      List.lookup "bounds" kvs = some v →
      v.isObj = false →
      _parseConfigfileLayer env (.obj kvs) dp =
        .error (.knownUnknown ("Layer bounds must be a dictionary, not: " ++ json_dumps v))) := by
  have hproj : getProjectionByName (.str "spherical mercator") = .ok Projection.sphericalMercator := by
    decide
  refine ⟨?_, ?_, ?_, ?_, ?_⟩
  · intro env kvs dp h1 h2
    simp [_parseConfigfileCache, h1, h2]
  · intro env kvs dp s h1 h2
    simp [_parseConfigfileCache, h1, h2]
  · intro env kvs pkvs dp h1 h2 h3 h4 h5 h6 h7 h8 h9 h10 h11 h12 h13
    simp [_parseConfigfileLayer, optKw, optsDict, metaInt, hproj,
      h1, h2, h3, h4, h5, h6, h7, h8, h9, h10, h11, h12, h13]
  · intro bkvs proj h1
    simp [_parseLayerBounds, sixBounds, numField, h1]
  · intro env kvs v dp h1 h2 h3 h4 h5 h6 h7 h8
    cases v
    case obj o => simp [JVal.isObj] at h8
    all_goals simp [_parseConfigfileLayer, optKw, hproj, h1, h2, h3, h4, h5, h6, h7]

/-- C3 witness: the missing-cache-selector case applied to the empty cache
spec. -/
theorem schema_error_reporting_witness :
    (List.lookup "name" ([] : List (String × JVal)) = Option.none) ∧
    (List.lookup "class" ([] : List (String × JVal)) = Option.none) ∧
    _parseConfigfileCache [] (.obj []) "." =
      .error (.exception ("Missing required cache name or class: " ++ json_dumps (.obj []))) :=
  ⟨rfl, rfl, schema_error_reporting.1 [] [] "." rfl rfl⟩

/-- C6: a Disk cache umask field is parsed as an octal integer, and an
invalid octal string fails with a raw `ValueError` (the casting failure),
not `Core.KnownUnknown`, the failure propagating unchanged through
`buildConfiguration`. -/
theorem disk_umask_octal :
    (∀ (env : PyEnv) (kvs : List (String × JVal)) (dp p q u : String) (n : Int),
      List.lookup "name" kvs = some (.str "Disk") →
      List.lookup "path" kvs = some (.str p) →
      enforcedLocalPath p dp "Disk cache path" = .ok q →
      List.lookup "umask" kvs = some (.str u) →
      int8? u = some n →
      List.lookup "dirs" kvs = Option.none →
      List.lookup "gzip" kvs = Option.none →
      _parseConfigfileCache env (.obj kvs) dp =
        .ok (.mk .disk [("path", .str q), ("umask", .int n)])) ∧
    (∀ (env : PyEnv) (kvs : List (String × JVal)) (dp p q u : String),
      List.lookup "name" kvs = some (.str "Disk") →
      List.lookup "path" kvs = some (.str p) →
      enforcedLocalPath p dp "Disk cache path" = .ok q →
      List.lookup "umask" kvs = some (.str u) →
      int8? u = Option.none →
      _parseConfigfileCache env (.obj kvs) dp =
        .error (.valueError ("invalid literal for int() with base 8: " ++ u)) ∧
      resultIsKnownUnknown (_parseConfigfileCache env (.obj kvs) dp) = false ∧
      buildConfiguration env (.obj [("cache", .obj kvs)]) dp =
        .error (.valueError ("invalid literal for int() with base 8: " ++ u))) := by
  have hg : getCacheByName (.str "Disk") = .ok CacheClass.disk := by decide
  constructor
  · intro env kvs dp p q u n h1 h2 h3 h4 h5 h6 h7
    simp [_parseConfigfileCache, addKwargs, hg, h1, h2, h3, h4, h5, h6, h7]
  · intro env kvs dp p q u h1 h2 h3 h4 h5
    have hmain : _parseConfigfileCache env (.obj kvs) dp =
        .error (.valueError ("invalid literal for int() with base 8: " ++ u)) := by
      simp [_parseConfigfileCache, hg, h1, h2, h3, h4, h5]
    refine ⟨hmain, ?_, ?_⟩
    · simp [hmain, resultIsKnownUnknown, Err.isKnownUnknown]
    · simp [buildConfiguration, hmain]

/-- C6 witness: umask "0022" parses to 18 for a Disk cache at /tmp/stache. -/
theorem disk_umask_octal_witness :
    (List.lookup "name"
      [("name", JVal.str "Disk"), ("path", JVal.str "/tmp/stache"), ("umask", JVal.str "0022")] =
      some (JVal.str "Disk")) ∧
    (enforcedLocalPath "/tmp/stache" "." "Disk cache path" = .ok "/tmp/stache") ∧
    (int8? "0022" = some 18) ∧
    _parseConfigfileCache []
      (.obj [("name", .str "Disk"), ("path", .str "/tmp/stache"), ("umask", .str "0022")]) "." =
      .ok (.mk .disk [("path", .str "/tmp/stache"), ("umask", .int 18)]) :=
  ⟨rfl, by decide, by decide,
   disk_umask_octal.1 []
     [("name", .str "Disk"), ("path", .str "/tmp/stache"), ("umask", .str "0022")]
     "." "/tmp/stache" "/tmp/stache" "0022" 18 rfl rfl (by decide) rfl (by decide) rfl rfl⟩

/-- C7: a configuration whose cache section is absent, or present with
neither `name` nor `class`, fails with the missing-cache-selector error
including the serialized offending spec — no no-op cache is substituted. -/
theorem missing_cache_selector :
    (∀ (env : PyEnv) (spec : List (String × JVal)) (dp : String),
      List.lookup "cache" spec = Option.none →
      buildConfiguration env (.obj spec) dp =
        .error (.exception ("Missing required cache name or class: \x7b\x7d"))) ∧
    (∀ (env : PyEnv) (spec : List (String × JVal)) (dp : String) (kvs : List (String × JVal)),
      List.lookup "cache" spec = some (.obj kvs) →
      List.lookup "name" kvs = Option.none → List.lookup "class" kvs = Option.none →
      buildConfiguration env (.obj spec) dp =
        .error (.exception ("Missing required cache name or class: " ++ json_dumps (.obj kvs)))) := by
  constructor
  · intro env spec dp h1
    simp [buildConfiguration, _parseConfigfileCache, h1, json_dumps, jsonDumpsPairs]
  · intro env spec dp kvs h1 h2 h3
    simp [buildConfiguration, _parseConfigfileCache, h1, h2, h3]

/-- C7 witness: the empty configuration spec has no cache section and fails
with the serialized empty spec in the message. -/
theorem missing_cache_selector_witness :
    (List.lookup "cache" ([] : List (String × JVal)) = Option.none) ∧
    buildConfiguration [] (.obj []) "." =
      .error (.exception ("Missing required cache name or class: \x7b\x7d")) :=
  ⟨rfl, missing_cache_selector.1 [] [] "." rfl⟩

/-- C10: a Disk cache spec without a `path` field fails with a raw
`KeyError` on "path" (not `Core.KnownUnknown`), before any cache is
constructed. -/
theorem disk_missing_path_keyerror :
    ∀ (env : PyEnv) (kvs : List (String × JVal)) (dp : String),
      List.lookup "name" kvs = some (.str "Disk") →
      List.lookup "path" kvs = Option.none →
      _parseConfigfileCache env (.obj kvs) dp = .error (.keyError "path") ∧
      resultIsKnownUnknown (_parseConfigfileCache env (.obj kvs) dp) = false := by
  intro env kvs dp h1 h2
  have hg : getCacheByName (.str "Disk") = .ok CacheClass.disk := by decide
  constructor
  · simp [_parseConfigfileCache, h1, h2, hg]
  · simp [_parseConfigfileCache, h1, h2, hg, resultIsKnownUnknown, Err.isKnownUnknown]

/-- C10 witness: the one-field Disk spec. -/
theorem disk_missing_path_keyerror_witness :
    (List.lookup "name" [("name", JVal.str "Disk")] = some (JVal.str "Disk")) ∧
    (List.lookup "path" [("name", JVal.str "Disk")] = Option.none) ∧
    _parseConfigfileCache [] (.obj [("name", .str "Disk")]) "." = .error (.keyError "path") :=
  ⟨rfl, rfl, (disk_missing_path_keyerror [] [("name", .str "Disk")] "." rfl rfl).1⟩

theorem assocSet_keys (l : List (String × Layer)) (k : String) (v : Layer) (k0 : String) :
    k0 ∈ (assocSet l k v).map Prod.fst ↔ (k0 = k ∨ k0 ∈ l.map Prod.fst) := by
  induction l with
  | nil => simp [assocSet]
  | cons p rest ih =>
      obtain ⟨a, b⟩ := p
      by_cases ha : a = k
      · subst ha
        simp [assocSet]
      · simp [assocSet, ha, ih]
        tauto

theorem buildLayersList_keys :
    ∀ (items : List (String × JVal)) (env : PyEnv) (dp : String)
      (acc out : List (String × Layer)),
      buildLayersList env dp acc items = .ok out →
      ∀ k, k ∈ out.map Prod.fst ↔ (k ∈ acc.map Prod.fst ∨ k ∈ items.map Prod.fst) := by
  intro items
  induction items with
  | nil =>
      intro env dp acc out h k
      simp [buildLayersList] at h
      subst h
      simp
  | cons p rest ih =>
      intro env dp acc out h k
      obtain ⟨name, ld⟩ := p
      simp only [buildLayersList] at h
      cases hp : _parseConfigfileLayer env ld dp with
      | error e => rw [hp] at h; simp at h
      | ok layer =>
          rw [hp] at h
          have := ih env dp (assocSet acc name layer) out h k
          rw [this, assocSet_keys]
          simp
          tauto

/-- C5: whenever `buildConfiguration` succeeds, the set of layer names of the
returned configuration equals exactly the key set of the spec's `layers`
mapping. -/
theorem buildConfiguration_layer_names :
    ∀ (env : PyEnv) (spec : List (String × JVal)) (dp : String)
      (items : List (String × JVal)) (conf : Configuration),
      List.lookup "layers" spec = some (.obj items) →
      buildConfiguration env (.obj spec) dp = .ok conf →
      ∀ k, k ∈ conf.layers.map Prod.fst ↔ k ∈ items.map Prod.fst := by
  intro env spec dp items conf h1 h2 k
  simp only [buildConfiguration, h1] at h2
  cases hc : _parseConfigfileCache env ((List.lookup "cache" spec).getD (.obj [])) dp with
  | error e => rw [hc] at h2; simp at h2
  | ok cache =>
      rw [hc] at h2
      simp only [Option.getD] at h2
      cases hb : buildLayersList env dp [] items with
      | error e => rw [hb] at h2; simp at h2
      | ok layers =>
          rw [hb] at h2
          simp at h2
          subst h2
          have := buildLayersList_keys items env dp [] layers hb k
          simpa using this

theorem exampleLayer_parses :
    _parseConfigfileLayer [] (.obj [("provider", .obj [("name", .str "proxy")])]) "." =
      .ok exampleLayer := by
  have hproj : getProjectionByName (.str "spherical mercator") = .ok Projection.sphericalMercator := by
    decide
  have hprov : getProviderByName (.str "proxy") = .ok ProviderClass.proxy := by decide
  have l1 : List.lookup "projection" [("provider", JVal.obj [("name", JVal.str "proxy")])] = Option.none := rfl
  have l2 : List.lookup "cache lifespan" [("provider", JVal.obj [("name", JVal.str "proxy")])] = Option.none := rfl
  have l3 : List.lookup "stale lock timeout" [("provider", JVal.obj [("name", JVal.str "proxy")])] = Option.none := rfl
  have l4 : List.lookup "write cache" [("provider", JVal.obj [("name", JVal.str "proxy")])] = Option.none := rfl
  have l5 : List.lookup "allowed origin" [("provider", JVal.obj [("name", JVal.str "proxy")])] = Option.none := rfl
  have l6 : List.lookup "preview" [("provider", JVal.obj [("name", JVal.str "proxy")])] = Option.none := rfl
  have l7 : List.lookup "bounds" [("provider", JVal.obj [("name", JVal.str "proxy")])] = Option.none := rfl
  have l8 : List.lookup "metatile" [("provider", JVal.obj [("name", JVal.str "proxy")])] = Option.none := rfl
  have l9 : List.lookup "jpeg options" [("provider", JVal.obj [("name", JVal.str "proxy")])] = Option.none := rfl
  have l10 : List.lookup "png options" [("provider", JVal.obj [("name", JVal.str "proxy")])] = Option.none := rfl
  have l11 : List.lookup "provider" [("provider", JVal.obj [("name", JVal.str "proxy")])] =
      some (JVal.obj [("name", JVal.str "proxy")]) := rfl
  have l12 : List.lookup "name" [("name", JVal.str "proxy")] = some (JVal.str "proxy") := rfl
  have l13 : List.lookup "url" [("name", JVal.str "proxy")] = Option.none := rfl
  have l14 : List.lookup "provider" [("name", JVal.str "proxy")] = Option.none := rfl
  simp [_parseConfigfileLayer, optKw, optsDict, metaInt, providerKwargs, exampleLayer,
    hproj, hprov, l1, l2, l3, l4, l5, l6, l7, l8, l9, l10, l11, l12, l13, l14]

/-- C5 witness: the minimal working configuration builds, and its single
layer name "example" is exactly the single key of the layers input. -/
theorem buildConfiguration_layer_names_witness :
    List.lookup "layers" exampleSpec = some (.obj exampleItems) ∧
    buildConfiguration [] (.obj exampleSpec) "." = .ok exampleConf ∧
    ("example" ∈ exampleConf.layers.map Prod.fst ↔ "example" ∈ exampleItems.map Prod.fst) := by
  have hg : getCacheByName (.str "Test") = .ok CacheClass.test := by decide
  have hcache : _parseConfigfileCache [] (.obj [("name", .str "Test")]) "." = .ok (.mk .test []) := by
    simp [_parseConfigfileCache, hg]
    decide
  have hc : List.lookup "cache"
      [("cache", JVal.obj [("name", JVal.str "Test")]),
       ("layers", JVal.obj [("example", JVal.obj [("provider", JVal.obj [("name", JVal.str "proxy")])])])] =
      some (JVal.obj [("name", JVal.str "Test")]) := rfl
  have hl : List.lookup "layers" exampleSpec = some (.obj exampleItems) := rfl
  have hll : List.lookup "layers"
      [("cache", JVal.obj [("name", JVal.str "Test")]),
       ("layers", JVal.obj [("example", JVal.obj [("provider", JVal.obj [("name", JVal.str "proxy")])])])] =
      some (JVal.obj [("example", JVal.obj [("provider", JVal.obj [("name", JVal.str "proxy")])])]) := rfl
  have hb : buildConfiguration [] (.obj exampleSpec) "." = .ok exampleConf := by
    simp [buildConfiguration, exampleSpec, exampleItems, exampleConf, hc, hll, hcache,
      buildLayersList, exampleLayer_parses, assocSet]
  exact ⟨hl, hb,
    buildConfiguration_layer_names [] exampleSpec "." exampleItems exampleConf hl hb "example"⟩

/-- C9: a configuration spec with no `layers` key at all, whose cache section
builds, succeeds with an empty layer collection. -/
theorem absent_layers_builds_empty :
    ∀ (env : PyEnv) (spec : List (String × JVal)) (dp : String) (c : Cache),
      List.lookup "layers" spec = Option.none →
      _parseConfigfileCache env ((List.lookup "cache" spec).getD (.obj [])) dp = .ok c →
      buildConfiguration env (.obj spec) dp = .ok ⟨c, dp, []⟩ := by
  intro env spec dp c h1 h2
  simp [buildConfiguration, h1, h2, buildLayersList]

/-- C9 witness: a spec holding only a Test cache builds to a configuration
with no layers. -/
theorem absent_layers_builds_empty_witness :
    (List.lookup "layers" [("cache", JVal.obj [("name", JVal.str "Test")])] = Option.none) ∧
    buildConfiguration [] (.obj [("cache", .obj [("name", .str "Test")])]) "." =
      .ok ⟨.mk .test [], ".", []⟩ := by
  have hg : getCacheByName (.str "Test") = .ok CacheClass.test := by decide
  have hcd : (List.lookup "cache" [("cache", JVal.obj [("name", JVal.str "Test")])]).getD (.obj []) =
      .obj [("name", .str "Test")] := rfl
  have hcache : _parseConfigfileCache []
      ((List.lookup "cache" [("cache", JVal.obj [("name", JVal.str "Test")])]).getD (.obj [])) "." =
      .ok (.mk .test []) := by
    rw [hcd]
    simp [_parseConfigfileCache, hg]
    decide
  exact ⟨rfl,
    absent_layers_builds_empty [] [("cache", .obj [("name", .str "Test")])] "."
      (.mk .test []) rfl hcache⟩
